import Mathlib

/-!
Shallow embedding of the sunbeam-migrate migration orchestration core.

Sources embedded:
* `sunbeam_migrate/constants.py` — status string constants.
* `sunbeam_migrate/db/api.py` — `get_migrations`, `delete_migrations`,
  `restore_migrations` (the SQLAlchemy store is modelled as a list of rows
  kept in `created_at` insertion order; `filter_by` is equality on the
  supplied fields; `update` maps over matching rows; `delete` drops them).
* `sunbeam_migrate/manager.py` — `SunbeamMigrationManager`
  `perform_individual_migration` / `perform_batch_migration`.
* `sunbeam_migrate/cmd/{list,delete,restore,start}.py` — the CLI layer's
  filter construction and guards.
* `sunbeam_migrate/handlers/neutron/subnet.py` — the dependency-resolution
  part of `SubnetHandler.perform_individual_migration` and
  `_get_migrated_network_id`.

The python `db/models.py`, `handlers/base.py`, `handlers/factory.py` and
`config.py` modules are not part of the sources; the record layout and the
base-handler dependency lookup are modelled from the spec where needed (see
the individual doc comments).  Remote-cloud I/O (the openstack sessions) is
modelled by handler-supplied functions; every remote invocation performed by
the manager is recorded in an explicit call trace.
-/

/-- constants.py: `STATUS_IN_PROGRESS`. -/
def STATUS_IN_PROGRESS : String := "in-progress"

/-- constants.py: `STATUS_COMPLETED`. -/
def STATUS_COMPLETED : String := "completed"

/-- constants.py: `STATUS_FAILED`. -/
def STATUS_FAILED : String := "failed"

/-- constants.py: `STATUS_SOURCE_CLEANUP_FAILED`. -/
def STATUS_SOURCE_CLEANUP_FAILED : String := "source-cleanup-failed"

/-- Python exceptions surfaced by the embedded code paths.
`invalidInput` embeds `exception.InvalidInput`, `clickException` embeds
`click.ClickException`, `notFound` embeds `exception.NotFound`,
`typeError` embeds the interpreter-level `TypeError`, and `genericError`
embeds a plain `Exception`. -/
inductive PyError where
  | invalidInput (msg : String)
  | clickException (msg : String)
  | notFound (msg : String)
  | typeError (msg : String)
  | genericError (msg : String)
deriving DecidableEq, Repr

/-- Modelled from the spec: the persistence model
`sunbeam_migrate.db.models.Migration` is not among the sources; spec section 3
lists its fields (identity, service, resource_type, source_id, nullable
destination_id, status, archived defaulting to false, nullable error_message)
and `manager.py` additionally populates `source_cloud` / `destination_cloud`.
`uuid` is the generated row identity (a `Nat` here); the position of a row in
the store list stands for its `created_at` order, so `created_at` itself is
not repeated as a field. -/
structure Migration where
  uuid : Nat
  service : String
  source_cloud : String
  destination_cloud : String
  source_id : String
  resource_type : String
  status : String
  destination_id : Option String := none
  error_message : Option String := none
  archived : Bool := false
deriving DecidableEq, Repr

/-- A placeholder row used with `List.getD`. -/
def defaultMigration : Migration :=
  { uuid := 0, service := "", source_cloud := "", destination_cloud := "",
    source_id := "", resource_type := "", status := "" }

/-- The keyword filters accepted by `db/api.py` (`**filters`) and built by
the CLI commands: equality filters on the `Migration` columns.  `none` means
the key is absent from the filter dict. -/
structure QueryFilters where
  service : Option String := none
  resource_type : Option String := none
  uuid : Option Nat := none
  status : Option String := none
  source_id : Option String := none
  archived : Option Bool := none
deriving DecidableEq, Repr

/-- An absent filter key matches everything; a present one is an equality
test (SQLAlchemy `filter_by`). -/
def matchOpt {α : Type} [DecidableEq α] : Option α → α → Bool
  | none, _ => true
  | some v, x => decide (v = x)

/-- SQLAlchemy `filter_by(**filters)` over the `Migration` columns:
the supplied equality filters are AND-combined. -/
def matchesFilters (f : QueryFilters) (m : Migration) : Bool :=
  matchOpt f.service m.service && matchOpt f.resource_type m.resource_type &&
  matchOpt f.uuid m.uuid && matchOpt f.status m.status &&
  matchOpt f.source_id m.source_id && matchOpt f.archived m.archived

/-- db/api.py `get_migrations`: unless `include_archived` is set, the
`archived` filter is forced to `False` (overwriting any caller-supplied
`archived` filter); the matching rows are returned ordered by `created_at`
ascending, which is the store's list order (every caller in the sources uses
the default `order_by="created_at", ascending=True`). -/
def get_migrations (include_archived : Bool) (f : QueryFilters)
    (store : List Migration) : List Migration :=
  let f := if include_archived then f else { f with archived := some false }
  store.filter (fun m => matchesFilters f m)

/-- db/api.py `delete_migrations`: soft deletion sets the `archived` flag on
every matching row; hard deletion removes the matching rows.  There is no
guard against an empty filter set at this layer. -/
def delete_migrations (soft_delete : Bool) (f : QueryFilters)
    (store : List Migration) : List Migration :=
  if soft_delete then
    store.map (fun m => if matchesFilters f m then { m with archived := true } else m)
  else
    store.filter (fun m => !(matchesFilters f m))

/-- db/api.py `restore_migrations`: forces `filters["archived"] = True`
(overwriting any caller-supplied `archived` filter) and clears the `archived`
flag on every matching row.  There is no guard against an empty filter set at
this layer. -/
def restore_migrations (f : QueryFilters) (store : List Migration) :
    List Migration :=
  let f := { f with archived := some true }
  store.map (fun m => if matchesFilters f m then { m with archived := false } else m)

/-- Remote calls the manager can issue through a handler, recorded as an
observable trace.  `deleteSourceCall` exists so that theorems can state that
the manager never performs source-side cleanup. -/
inductive HandlerCall where
  | migrateCall (resource_id : String)
  | deleteSourceCall (resource_id : String)
deriving DecidableEq, Repr

/-- A migration handler as consumed by `manager.py`:
`service_type` embeds `get_service_type()` and `migrate` embeds
`perform_individual_migration(resource_id)` — a remote, possibly-failing
operation returning the destination id.  It receives the current store
because concrete handlers (e.g. the subnet handler) query the migration
database from inside their migrate call. -/
structure Handler where
  service_type : String
  migrate : String → List Migration → Except PyError String

/-- config.py is not among the sources; the two cloud names are only copied
verbatim into each record, so fixed placeholder values suffice. -/
def source_cloud_name : String := "source-cloud"

/-- See `source_cloud_name`. -/
def destination_cloud_name : String := "destination-cloud"

/-- The record created at the start of manager.py
`perform_individual_migration` (status IN_PROGRESS, no destination id);
`u` is the generated row identity, fresh with respect to the store. -/
def new_migration (handler : Handler) (resource_type resource_id : String)
    (u : Nat) : Migration :=
  { uuid := u, service := handler.service_type,
    source_cloud := source_cloud_name,
    destination_cloud := destination_cloud_name,
    source_id := resource_id, resource_type := resource_type,
    status := STATUS_IN_PROGRESS }

/-- `migration.save()` on an already-inserted row: replace the row carrying
this uuid. -/
def updateByUuid (store : List Migration) (u : Nat) (m : Migration) :
    List Migration :=
  store.map (fun r => if r.uuid = u then m else r)

/-- The extractable message of an embedded python exception. -/
def pyErrorMessage : PyError → String
  | .invalidInput msg => msg
  | .clickException msg => msg
  | .notFound msg => msg
  | .typeError msg => msg
  | .genericError msg => msg

/-- Outcome of one manager operation: the returned/raised value (the python
method returns `None` on success, hence `Unit`), the store after all
`save()` calls, the trace of remote handler calls, and the sequence of row
snapshots written to the store (`writes`), in write order. -/
structure MigResult where
  result : Except PyError Unit
  store : List Migration
  calls : List HandlerCall
  writes : List Migration
deriving Repr

/-- manager.py `SunbeamMigrationManager.perform_individual_migration`
(lines 16-48): rejects a falsy resource id with `InvalidInput` before
touching the store; otherwise inserts an IN_PROGRESS record, invokes the
handler's migrate call once, and on failure saves the record as FAILED with
an error message and re-raises, while on success saves it as COMPLETED with
the destination id.  The method performs no store lookup beforehand, accepts
no `cleanup_source` argument, never issues a source-deletion call, and
returns `None` (`Unit`). -/
def perform_individual_migration (handler : Handler)
    (resource_type resource_id : String) (store : List Migration) : MigResult :=
  if resource_id = "" then
    { result := .error (.invalidInput "No resource id specified."),
      store := store, calls := [], writes := [] }
  else
    let m0 := new_migration handler resource_type resource_id store.length
    let store1 := store ++ [m0]
    match handler.migrate resource_id store1 with
    | .error ex =>
        let m1 := { m0 with status := STATUS_FAILED,
                            error_message := some ("Migration failed, error: " ++ pyErrorMessage ex) }
        { result := .error ex, store := updateByUuid store1 m0.uuid m1,
          calls := [.migrateCall resource_id], writes := [m0, m1] }
    | .ok dest =>
        let m1 := { m0 with status := STATUS_COMPLETED,
                            destination_id := some dest }
        { result := .ok (), store := updateByUuid store1 m0.uuid m1,
          calls := [.migrateCall resource_id], writes := [m0, m1] }

/-- Outcome of a batch migration: the raised error if any (the python method
returns `None`), the final store, the remote-call trace, and the candidate
ids that were skipped as already migrated. -/
structure BatchResult where
  result : Except PyError Unit
  store : List Migration
  calls : List HandlerCall
  skipped : List String
deriving Repr

/-- The candidate loop of manager.py `perform_batch_migration` (lines 59-78):
for each id in listing order, query the store with
`source_id=resource_id, status=STATUS_COMPLETED` (non-archived only, since
`include_archived` defaults to false) and skip the candidate when any row
matches; otherwise either log (dry run) or call
`perform_individual_migration`.  The loop body has no exception handler, so a
failing candidate propagates its exception and ends the loop. -/
def batch_loop (handler : Handler) (resource_type : String) (dry_run : Bool) :
    List String → List Migration → List HandlerCall → List String → BatchResult
  | [], store, calls, skipped =>
      { result := .ok (), store := store, calls := calls, skipped := skipped }
  | rid :: rest, store, calls, skipped =>
      let existing := get_migrations false
        { source_id := some rid, status := some STATUS_COMPLETED } store
      if existing.isEmpty then
        if dry_run then
          batch_loop handler resource_type dry_run rest store calls skipped
        else
          let r := perform_individual_migration handler resource_type rid store
          match r.result with
          | .ok _ =>
              batch_loop handler resource_type dry_run rest r.store
                (calls ++ r.calls) skipped
          | .error e =>
              { result := .error e, store := r.store,
                calls := calls ++ r.calls, skipped := skipped }
      else
        batch_loop handler resource_type dry_run rest store calls
          (skipped ++ [rid])

/-- manager.py `perform_batch_migration` (lines 50-78): the candidate ids
come from `handler.get_source_resource_ids(resource_filters)` — remote cloud
listing, supplied here as `resource_ids` — and are then processed by the
candidate loop.  No succeeded/failed/skipped summary is computed or
returned. -/
def perform_batch_migration (handler : Handler) (resource_type : String)
    (resource_ids : List String) (dry_run : Bool) (store : List Migration) :
    BatchResult :=
  batch_loop handler resource_type dry_run resource_ids store [] []

/-- cmd/start.py `start_migration`: the command invokes
`SunbeamMigrationManager.perform_individual_migration` passing the
`cleanup_source` keyword argument, but the manager method (manager.py lines
16-48) accepts only `(resource_type, resource_id)`; in python the call
therefore raises `TypeError` at the call site before the manager body runs,
for every invocation and regardless of the flag's value, leaving the store
untouched and issuing no remote calls. -/
def start_migration (handler : Handler) (resource_type resource_id : String)
    (cleanup_source : Bool) (store : List Migration) : MigResult :=
  { result := .error (.typeError
      "perform_individual_migration got an unexpected keyword argument cleanup_source"),
    store := store, calls := [], writes := [] }

/-- cmd/list.py `list_migrations` filter construction: each supplied CLI
option becomes an equality filter; the `--archived` flag adds
`archived=True`; `--include-archived` is forwarded as `include_archived`. -/
def cmd_list_migrations (service resource_type status source_id : Option String)
    (archived include_archived : Bool) (store : List Migration) :
    List Migration :=
  get_migrations include_archived
    { service := service, resource_type := resource_type, status := status,
      source_id := source_id,
      archived := if archived then some true else none } store

/-- True when the CLI filter dict is empty (`if not filters`). -/
def filtersEmpty (f : QueryFilters) : Bool :=
  f.service.isNone && f.resource_type.isNone && f.uuid.isNone &&
  f.status.isNone && f.source_id.isNone && f.archived.isNone

/-- cmd/delete.py `delete_migrations`: builds the filter dict from the
options (`--archived` adds `archived=True`), refuses an empty filter dict
without `--all` with a `ClickException`, and otherwise calls the db api with
`soft_delete = not hard`. -/
def cmd_delete_migrations (service resource_type : Option String)
    (migration_uuid : Option Nat) (status source_id : Option String)
    (archived hard all_migrations : Bool) (store : List Migration) :
    Except PyError (List Migration) :=
  let f : QueryFilters :=
    { service := service, resource_type := resource_type,
      uuid := migration_uuid, status := status, source_id := source_id,
      archived := if archived then some true else none }
  if filtersEmpty f && !all_migrations then
    .error (.clickException "No filters specified. Pass --all to remove all migrations.")
  else
    .ok (delete_migrations (!hard) f store)

/-- cmd/restore.py `restore_migrations`: builds the filter dict from the
options and calls the db api unconditionally — unlike the delete command, it
has neither an `--all` flag nor an empty-filter guard, and it cannot fail. -/
def cmd_restore_migrations (service resource_type : Option String)
    (migration_uuid : Option Nat) (status source_id : Option String)
    (store : List Migration) : List Migration :=
  restore_migrations
    { service := service, resource_type := resource_type,
      uuid := migration_uuid, status := status, source_id := source_id } store

/-- The source-cloud view of a subnet, restricted to the field the
dependency-resolution logic of `SubnetHandler.perform_individual_migration`
reads (`source_subnet.network_id`); the remaining attribute copying feeds
only the destination-cloud create call, abstracted by `create_subnet`
below. -/
structure SourceSubnet where
  network_id : String
deriving DecidableEq, Repr

/-- Modelled from the spec: `handlers/base.py`
(`BaseMigrationHandler._get_associated_resource_destination_id`) is not among
the sources.  Per spec section 4.2, `resolvedDependencies` is the list of
`(type, sourceId, destinationId)` triples of already-migrated associated
resources, and the lookup fails with `NotFound` when the requested
`(type, sourceId)` pair is absent. -/
def get_associated_resource_destination_id (resource_type source_id : String)
    (migrated : List (String × String × String)) : Except PyError String :=
  match migrated.find? (fun t => decide (t.1 = resource_type) && decide (t.2.1 = source_id)) with
  | some t => .ok t.2.2
  | none => .error (.notFound "Associated resource not found")

/-- handlers/neutron/subnet.py `SubnetHandler._get_migrated_network_id`:
query the store for `resource_type="network", source_id=..., status=completed`
(note: with no `archived` filter), ordered by `created_at` descending, and
return the first row's `destination_id` — i.e. the destination id of the
most recently created matching row, if any. -/
def get_migrated_network_id (store : List Migration)
    (source_network_id : String) : Option String :=
  match (store.filter (fun m =>
      decide (m.resource_type = "network") &&
      decide (m.source_id = source_network_id) &&
      decide (m.status = STATUS_COMPLETED))).getLast? with
  | some m => m.destination_id
  | none => none

/-- handlers/neutron/subnet.py `SubnetHandler.perform_individual_migration`
(lines 73-108, the dependency-resolution part), embedded for reference as
the handler's own body: look up the source subnet (plain `Exception` when
absent), resolve the destination network id first from
`migrated_associated_resources` and, on `NotFound`, fall back to the
migration-store lookup; when neither yields a (truthy) id, raise
`InvalidInput` telling the operator to migrate the parent network first.
Only then is the destination subnet created.  The attribute-copying payload
of the create call does not influence the store or the ordering and is
abstracted by `create_subnet : destination network id → new subnet id`.
NOTE: this body is unreachable through the manager — see `subnetHandler`:
the manager's one-argument call fails at the call boundary, so neither this
InvalidInput path nor the destination-reuse fallback ever executes in the
program as written. -/
def subnet_perform_individual_migration
    (source_subnets : String → Option SourceSubnet)
    (create_subnet : String → String) (resource_id : String)
    (migrated_associated_resources : List (String × String × String))
    (store : List Migration) : Except PyError String :=
  match source_subnets resource_id with
  | none => .error (.genericError ("Subnet not found: " ++ resource_id))
  | some source_subnet =>
    let destination_network_id :=
      match get_associated_resource_destination_id "network"
          source_subnet.network_id migrated_associated_resources with
      | .ok d => some d
      | .error _ => get_migrated_network_id store source_subnet.network_id
    match destination_network_id with
    | none =>
        .error (.invalidInput
          ("Unable to find migrated destination network for subnet " ++ resource_id))
    | some d =>
        if d = "" then
          .error (.invalidInput
            ("Unable to find migrated destination network for subnet " ++ resource_id))
        else
          .ok (create_subnet d)

/-- The subnet handler as invoked by the manager.  manager.py (line 38)
calls `handler.perform_individual_migration(resource_id)` with a single
argument, while `SubnetHandler.perform_individual_migration` requires two
positional arguments `(resource_id, migrated_associated_resources)` with no
default; in python the call therefore raises `TypeError` at the call
boundary, inside the manager's `try` block, before the handler body
(`subnet_perform_individual_migration`) runs. -/
def subnetHandler : Handler :=
  { service_type := "neutron",
    migrate := fun _ _ => .error (.typeError
      "perform_individual_migration missing 1 required positional argument: migrated_associated_resources") }

/-- A handler whose remote migrate call ignores the store — used to
instantiate theorems at concrete inputs. -/
def simpleHandler (svc : String) (f : String → Except PyError String) : Handler :=
  { service_type := svc, migrate := fun rid _ => f rid }

/-- A handler whose migrate call always succeeds, returning a derived
destination id. -/
def okHandler : Handler :=
  simpleHandler "neutron" (fun rid => .ok (rid ++ "-dst"))

/-- C10: calling perform_individual_migration with an empty (falsy) resource
id fails with InvalidInput before any migration record is created: the store
is returned unchanged, no handler call is made and nothing is written. -/
theorem c10_empty_resource_id (handler : Handler) (resource_type : String)
    (store : List Migration) :
    perform_individual_migration handler resource_type "" store =
      { result := .error (.invalidInput "No resource id specified."),
        store := store, calls := [], writes := [] } := by
  rfl

/-- C1 counterexample: migrating the same (network, net-1) pair twice with no
archival in between invokes the handler's remote migrate call on BOTH
invocations (each call's remote trace is nonempty) and creates a second
record, so the second call performs a second remote creation instead of
short-circuiting; the method, returning `None`, also yields no destinationId
to compare. -/
theorem c1_counterexample :
    (perform_individual_migration okHandler "network" "net-1" []).calls =
      [HandlerCall.migrateCall "net-1"] ∧
    (perform_individual_migration okHandler "network" "net-1" []).result = .ok () ∧
    (perform_individual_migration okHandler "network" "net-1"
        (perform_individual_migration okHandler "network" "net-1" []).store).calls =
      [HandlerCall.migrateCall "net-1"] ∧
    (perform_individual_migration okHandler "network" "net-1"
        (perform_individual_migration okHandler "network" "net-1" []).store).store.length = 2 := by
  refine ⟨rfl, rfl, rfl, rfl⟩

/-- C1 amended: perform_individual_migration performs no idempotency check —
every call with a non-empty resource id invokes the handler's remote migrate
call exactly once, regardless of any existing completed record in the store,
so invoking it twice performs two remote creations (and no destinationId is
returned; deduplication exists only in the batch path). -/
theorem c1_no_idempotent_short_circuit (handler : Handler)
    (resource_type resource_id : String) (store : List Migration)
    (h : resource_id ≠ "") :
    (perform_individual_migration handler resource_type resource_id store).calls =
      [HandlerCall.migrateCall resource_id] := by
  simp only [perform_individual_migration, if_neg h]
  cases handler.migrate resource_id
      (store ++ [new_migration handler resource_type resource_id store.length]) <;> rfl

/-- C1 witness: the amended theorem applied at a concrete input. -/
theorem c1_witness :
    ("net-1" : String) ≠ "" ∧
    (perform_individual_migration okHandler "network" "net-1" []).calls =
      [HandlerCall.migrateCall "net-1"] :=
  ⟨by decide, c1_no_idempotent_short_circuit okHandler "network" "net-1" [] (by decide)⟩

/-- A store distinguishing the batch skip rule used by the code from the one
claimed: row 0 is a completed migration of a DIFFERENT resource type sharing
the candidate source id "X"; row 1 is a SOURCE_CLEANUP_FAILED migration of
the batch's own resource type for source id "Y". -/
def c2_store : List Migration :=
  [ { uuid := 0, service := "neutron", source_cloud := source_cloud_name,
      destination_cloud := destination_cloud_name, source_id := "X",
      resource_type := "subnet", status := STATUS_COMPLETED,
      destination_id := some "X-dst" },
    { uuid := 1, service := "neutron", source_cloud := source_cloud_name,
      destination_cloud := destination_cloud_name, source_id := "Y",
      resource_type := "network", status := STATUS_SOURCE_CLEANUP_FAILED,
      destination_id := some "Y-dst" } ]

/-- C2 counterexample: batch-migrating resource type "network" over
candidates "X" and "Y": no record in the store matches the pair
(resource_type="network", source_id="X"), yet "X" is skipped (its completed
record belongs to resource type "subnet"); and the store holds a non-archived
(network, "Y") record with status SOURCE_CLEANUP_FAILED, yet "Y" is migrated
(a remote migrate call is issued for it) instead of being skipped.  Both
directions of the claimed iff fail. -/
theorem c2_counterexample :
    c2_store.all (fun m =>
      !(decide (m.resource_type = "network") && decide (m.source_id = "X"))) = true ∧
    (perform_batch_migration okHandler "network" ["X", "Y"] false c2_store).skipped =
      ["X"] ∧
    c2_store.any (fun m =>
      !m.archived && decide (m.resource_type = "network") &&
      decide (m.source_id = "Y") &&
      decide (m.status = STATUS_SOURCE_CLEANUP_FAILED)) = true ∧
    (perform_batch_migration okHandler "network" ["X", "Y"] false c2_store).calls =
      [HandlerCall.migrateCall "Y"] := by
  refine ⟨by decide, rfl, by decide, rfl⟩

/-- C2 amended: a batch candidate is skipped if and only if the store holds a
non-archived record whose source_id equals the candidate — the resource type
of the record is NOT consulted — and whose status is exactly COMPLETED
(SOURCE_CLEANUP_FAILED records do not cause a skip).  Stated for a
single-candidate batch, which is the per-candidate rule applied by the
loop. -/
theorem c2_skip_iff_completed_source_id (handler : Handler)
    (resource_type c : String) (store : List Migration) :
    (perform_batch_migration handler resource_type [c] false store).skipped = [c] ↔
      ∃ m ∈ store, m.archived = false ∧ m.source_id = c ∧
        m.status = STATUS_COMPLETED := by
  have hpred : ∀ m : Migration,
      matchesFilters { service := none, resource_type := none, uuid := none,
                       status := some STATUS_COMPLETED, source_id := some c,
                       archived := some false } m = true ↔
      (m.archived = false ∧ m.source_id = c ∧ m.status = STATUS_COMPLETED) := by
    intro m
    simp only [matchesFilters, matchOpt, Bool.and_eq_true, decide_eq_true_eq,
      Bool.true_and]
    constructor
    · rintro ⟨⟨hst, hs⟩, ha⟩
      exact ⟨ha.symm, hs.symm, hst.symm⟩
    · rintro ⟨ha, hs, hst⟩
      exact ⟨⟨hst.symm, hs.symm⟩, ha.symm⟩
  have hdef : get_migrations false
      { source_id := some c, status := some STATUS_COMPLETED } store =
      store.filter (fun m => matchesFilters { service := none, resource_type := none,
                                              uuid := none, status := some STATUS_COMPLETED,
                                              source_id := some c,
                                              archived := some false } m) := rfl
  have hchar : (get_migrations false
      { source_id := some c, status := some STATUS_COMPLETED } store).isEmpty = true ↔
      ¬ ∃ m ∈ store, m.archived = false ∧ m.source_id = c ∧
        m.status = STATUS_COMPLETED := by
    rw [hdef, List.isEmpty_iff, List.filter_eq_nil_iff]
    constructor
    · rintro h ⟨m, hm, hP⟩
      exact h m hm (by simpa using (hpred m).mpr hP)
    · intro h m hm hpm
      exact h ⟨m, hm, (hpred m).mp (by simpa using hpm)⟩
  have hstep : (perform_batch_migration handler resource_type [c] false store).skipped =
      if (get_migrations false
        { source_id := some c, status := some STATUS_COMPLETED } store).isEmpty
      then [] else [c] := by
    unfold perform_batch_migration batch_loop
    by_cases h : (get_migrations false
        { source_id := some c, status := some STATUS_COMPLETED } store).isEmpty = true
    · rw [if_pos h, if_pos h]
      cases hr : (perform_individual_migration handler resource_type c store).result <;>
        simp [batch_loop, hr]
    · rw [if_neg h, if_neg h]
      simp [batch_loop]
  rw [hstep]
  by_cases h : (get_migrations false
      { source_id := some c, status := some STATUS_COMPLETED } store).isEmpty = true
  · rw [if_pos h]
    constructor
    · intro habs
      exact absurd habs (by simp)
    · intro hex
      exact absurd hex (hchar.mp h)
  · rw [if_neg h]
    constructor
    · intro _
      by_contra hne
      exact h (hchar.mpr hne)
    · intro _
      rfl

/-- A handler whose remote migrate call fails for source id "a" and succeeds
for every other id. -/
def failHandler : Handler :=
  simpleHandler "neutron"
    (fun rid => if rid = "a" then .error (.genericError "boom") else .ok (rid ++ "-dst"))

/-- C3 counterexample: batch-migrating candidates "a" then "b" where "a"
fails remotely: the exception propagates out of the batch (the result is the
raised error, not a summary), candidate "b" is never attempted (no remote
call for it, no record for it), nothing is counted or skipped. -/
theorem c3_counterexample :
    (perform_batch_migration failHandler "network" ["a", "b"] false []).result =
      Except.error (PyError.genericError "boom") ∧
    (perform_batch_migration failHandler "network" ["a", "b"] false []).calls =
      [HandlerCall.migrateCall "a"] ∧
    (perform_batch_migration failHandler "network" ["a", "b"] false []).store.map
      Migration.source_id = ["a"] ∧
    (perform_batch_migration failHandler "network" ["a", "b"] false []).skipped = [] := by
  refine ⟨rfl, rfl, rfl, rfl⟩

/-- C3 amended: a failure migrating one batch candidate ABORTS the batch —
when the first candidate is not skipped and its remote migrate call fails,
the loop stops with that exception: the remaining candidates are never
processed (the remote trace holds only the failed candidate's call) and no
succeeded/failed/skipped summary is produced. -/
theorem c3_failure_aborts_batch (handler : Handler) (resource_type c : String)
    (rest : List String) (store : List Migration) (e : PyError)
    (hc : c ≠ "")
    (hskip : get_migrations false
      { source_id := some c, status := some STATUS_COMPLETED } store = [])
    (hmig : handler.migrate c
      (store ++ [new_migration handler resource_type c store.length]) = .error e) :
    (perform_batch_migration handler resource_type (c :: rest) false store).result =
      .error e ∧
    (perform_batch_migration handler resource_type (c :: rest) false store).calls =
      [HandlerCall.migrateCall c] ∧
    (perform_batch_migration handler resource_type (c :: rest) false store).skipped =
      [] := by
  have hres : (perform_individual_migration handler resource_type c store).result =
      .error e := by
    simp only [perform_individual_migration, if_neg hc, hmig]
  have hcalls : (perform_individual_migration handler resource_type c store).calls =
      [HandlerCall.migrateCall c] := by
    simp only [perform_individual_migration, if_neg hc, hmig]
  unfold perform_batch_migration batch_loop
  rw [hskip]
  simp only [List.isEmpty_nil, if_true, Bool.false_eq_true, if_false]
  rw [hres]
  simp only [List.nil_append, hcalls]
  exact ⟨trivial, trivial, trivial⟩

/-- C3 witness: the amended theorem applied at a concrete input. -/
theorem c3_witness :
    ("a" : String) ≠ "" ∧
    get_migrations false { source_id := some "a", status := some STATUS_COMPLETED }
      [] = [] ∧
    failHandler.migrate "a" (([] : List Migration) ++
      [new_migration failHandler "network" "a" (List.length ([] : List Migration))]) =
      .error (.genericError "boom") ∧
    (perform_batch_migration failHandler "network" ["a", "b"] false []).result =
      .error (.genericError "boom") :=
  ⟨by decide, rfl, rfl,
    (c3_failure_aborts_batch failHandler "network" "a" ["b"] []
      (.genericError "boom") (by decide) rfl rfl).1⟩

/-- C4 counterexample: migrating subnet sub-1 whose associated network net-1
has no prior migration does NOT trigger migration of net-1: the manager's
one-argument handler call raises TypeError (the handler requires a second
positional argument), sub-1's record is created first (before any net-1
record could exist) and ends FAILED, the only remote invocation attempted is
sub-1's own, and no record for net-1 is ever created — no record reaches
COMPLETED at all. -/
theorem c4_counterexample :
    (perform_individual_migration subnetHandler "subnet" "sub-1" []).result =
      .error (.typeError
        "perform_individual_migration missing 1 required positional argument: migrated_associated_resources") ∧
    (perform_individual_migration subnetHandler "subnet" "sub-1" []).calls =
      [HandlerCall.migrateCall "sub-1"] ∧
    (perform_individual_migration subnetHandler "subnet" "sub-1" []).store.map
      Migration.source_id = ["sub-1"] ∧
    (perform_individual_migration subnetHandler "subnet" "sub-1" []).store.map
      Migration.status = [STATUS_FAILED] := by
  refine ⟨rfl, rfl, rfl, rfl⟩

/-- C4 amended: the manager migrates no dependencies.  Migrating any subnet
through the manager — in particular sub-1 whose network net-1 has no prior
migration — creates the subnet's own record first (IN_PROGRESS), then fails
with TypeError because manager.py passes a single argument to the handler's
two required positionals, and marks that record FAILED; the only record ever
written is the subnet's own and the only remote invocation attempted is the
subnet's, so the associated network is never migrated and no record is ever
created for it.  (The handler's own InvalidInput and destination-id-reuse
logic is unreachable through the manager.) -/
theorem c4_dependency_not_migrated (store : List Migration) (sub : String)
    (hsub : sub ≠ "") :
    (perform_individual_migration subnetHandler "subnet" sub store).result =
      .error (.typeError
        "perform_individual_migration missing 1 required positional argument: migrated_associated_resources") ∧
    (perform_individual_migration subnetHandler "subnet" sub store).calls =
      [HandlerCall.migrateCall sub] ∧
    (perform_individual_migration subnetHandler "subnet" sub store).writes.map
      Migration.status = [STATUS_IN_PROGRESS, STATUS_FAILED] ∧
    (perform_individual_migration subnetHandler "subnet" sub store).writes.map
      Migration.source_id = [sub, sub] := by
  simp only [perform_individual_migration, if_neg hsub]
  exact ⟨rfl, rfl, rfl, rfl⟩

/-- C4 witness: the amended theorem applied at a concrete input. -/
theorem c4_witness :
    ("sub-1" : String) ≠ "" ∧
    (perform_individual_migration subnetHandler "subnet" "sub-1" []).calls =
      [HandlerCall.migrateCall "sub-1"] :=
  ⟨by decide, (c4_dependency_not_migrated [] "sub-1" (by decide)).2.1⟩

/-- C5: the source-cleanup contract is not implemented.  Every invocation of
the start command raises TypeError (start.py passes a cleanup_source keyword
the manager's perform_individual_migration does not accept) and leaves the
store untouched; and the manager itself, for every input, issues no
source-deletion remote call (its trace is empty or the single migrate call)
and never writes a record whose status is SOURCE_CLEANUP_FAILED (the written
status sequence is empty, IN_PROGRESS-then-FAILED, or
IN_PROGRESS-then-COMPLETED). -/
theorem c5_no_source_cleanup (handler : Handler)
    (resource_type resource_id : String) (cleanup_source : Bool)
    (store : List Migration) :
    (start_migration handler resource_type resource_id cleanup_source store).result =
      .error (.typeError
        "perform_individual_migration got an unexpected keyword argument cleanup_source") ∧
    (start_migration handler resource_type resource_id cleanup_source store).store =
      store ∧
    ((perform_individual_migration handler resource_type resource_id store).calls = [] ∨
     (perform_individual_migration handler resource_type resource_id store).calls =
       [HandlerCall.migrateCall resource_id]) ∧
    ((perform_individual_migration handler resource_type resource_id store).writes.map
        Migration.status = [] ∨
     (perform_individual_migration handler resource_type resource_id store).writes.map
        Migration.status = [STATUS_IN_PROGRESS, STATUS_FAILED] ∨
     (perform_individual_migration handler resource_type resource_id store).writes.map
        Migration.status = [STATUS_IN_PROGRESS, STATUS_COMPLETED]) := by
  refine ⟨rfl, rfl, ?_, ?_⟩
  · by_cases h : resource_id = ""
    · left
      simp [perform_individual_migration, h]
    · right
      simp only [perform_individual_migration, if_neg h]
      cases handler.migrate resource_id
          (store ++ [new_migration handler resource_type resource_id store.length]) <;> rfl
  · by_cases h : resource_id = ""
    · left
      simp [perform_individual_migration, h]
    · right
      simp only [perform_individual_migration, if_neg h]
      cases handler.migrate resource_id
          (store ++ [new_migration handler resource_type resource_id store.length])
      · left
        rfl
      · right
        rfl

/-- An archived completed migration row. -/
def c6_archived_row : Migration :=
  { uuid := 0, service := "neutron", source_cloud := source_cloud_name,
    destination_cloud := destination_cloud_name, source_id := "A",
    resource_type := "network", status := STATUS_COMPLETED,
    destination_id := some "A-dst", archived := true }

/-- A non-archived completed migration row. -/
def c6_plain_row : Migration :=
  { uuid := 1, service := "neutron", source_cloud := source_cloud_name,
    destination_cloud := destination_cloud_name, source_id := "B",
    resource_type := "network", status := STATUS_COMPLETED,
    destination_id := some "B-dst", archived := false }

/-- C6: with the archived filter requested (the CLI's --archived flag, whose
help text promises to show only archived migrations) but include_archived
unset, the query returns exactly the NON-archived row and omits the archived
one: get_migrations overwrites the caller's archived=True filter with
archived=False whenever include_archived is false, so a query with filter
archived=true does return rows with archived=false.  The second part shows
the default query (no archived filter, include_archived unset) correctly
returns only non-archived rows. -/
theorem c6_archived_filter_overridden :
    cmd_list_migrations none none none none true false
      [c6_archived_row, c6_plain_row] = [c6_plain_row] ∧
    c6_archived_row.archived = true ∧
    c6_plain_row.archived = false ∧
    cmd_list_migrations none none none none false false
      [c6_archived_row, c6_plain_row] = [c6_plain_row] := by
  refine ⟨rfl, rfl, rfl, rfl⟩

/-- The per-row action of a soft delete: archive the row when it matches. -/
def soft_delete_step (f : QueryFilters) (m : Migration) : Migration :=
  if matchesFilters f m then { m with archived := true } else m

/-- The per-row action of a restore: clear the archived flag when the row
matches the filters with `archived` forced to true. -/
def restore_step (f : QueryFilters) (m : Migration) : Migration :=
  if matchesFilters { f with archived := some true } m then
    { m with archived := false } else m

/-- The first five (non-archived) filter components of `matchesFilters`. -/
def matchesNonArchived (f : QueryFilters) (m : Migration) : Bool :=
  matchOpt f.service m.service && matchOpt f.resource_type m.resource_type &&
  matchOpt f.uuid m.uuid && matchOpt f.status m.status &&
  matchOpt f.source_id m.source_id

theorem matchesFilters_split (f : QueryFilters) (m : Migration) :
    matchesFilters f m =
      (matchesNonArchived f m && matchOpt f.archived m.archived) := rfl

theorem delete_migrations_as_map (f : QueryFilters) (store : List Migration) :
    delete_migrations true f store = store.map (soft_delete_step f) := rfl

theorem restore_migrations_as_map (f : QueryFilters) (store : List Migration) :
    restore_migrations f store = store.map (restore_step f) := rfl

theorem getD_map {α β : Type} (l : List α) (fn : α → β) (i : Nat) (d : β)
    (hd : α) (hi : i < l.length) :
    (l.map fn).getD i d = fn (l.getD i hd) := by
  induction l generalizing i with
  | nil => exact absurd hi (by simp)
  | cons a t ih =>
    cases i with
    | zero => rfl
    | succ n => exact ih n (Nat.lt_of_succ_lt_succ hi)

/-- C7: soft delete followed by restore with the same filters is a round
trip up to the archived flag: the store keeps the same length (rows are
never physically removed); every row matched by the filters comes back
identical to its pre-delete state except that `archived` is false; every
row — matched or not — is either untouched or merely has its archived flag
cleared (no other field is ever modified); and restore implicitly matches
`archived=true` regardless of any caller-supplied archived filter. -/
theorem c7_soft_delete_restore_round_trip (f : QueryFilters)
    (store : List Migration) :
    (restore_migrations f (delete_migrations true f store)).length =
      store.length ∧
    (∀ i, i < store.length →
      ((matchesFilters f (store.getD i defaultMigration) = true →
        (restore_migrations f (delete_migrations true f store)).getD i
          defaultMigration =
          { store.getD i defaultMigration with archived := false }) ∧
       ((restore_migrations f (delete_migrations true f store)).getD i
          defaultMigration = store.getD i defaultMigration ∨
        (restore_migrations f (delete_migrations true f store)).getD i
          defaultMigration =
          { store.getD i defaultMigration with archived := false }))) ∧
    restore_migrations f store =
      restore_migrations { f with archived := some true } store := by
  refine ⟨?_, ?_, rfl⟩
  · rw [restore_migrations_as_map, delete_migrations_as_map]
    simp
  · intro i hi
    have hi1 : i < (delete_migrations true f store).length := by
      rw [delete_migrations_as_map]
      simpa using hi
    have e1 : (restore_migrations f (delete_migrations true f store)).getD i
        defaultMigration =
        restore_step f ((delete_migrations true f store).getD i defaultMigration) := by
      rw [restore_migrations_as_map]
      exact getD_map _ _ i _ defaultMigration hi1
    have e2 : (delete_migrations true f store).getD i defaultMigration =
        soft_delete_step f (store.getD i defaultMigration) := by
      rw [delete_migrations_as_map]
      exact getD_map _ _ i _ defaultMigration hi
    rw [e1, e2]
    by_cases hm : matchesFilters f (store.getD i defaultMigration) = true
    · have hna : matchesNonArchived f (store.getD i defaultMigration) = true := by
        have h := hm
        rw [matchesFilters_split, Bool.and_eq_true] at h
        exact h.1
      have houter : matchesFilters { f with archived := some true }
          { store.getD i defaultMigration with archived := true } = true := by
        show (matchesNonArchived f (store.getD i defaultMigration) && true) = true
        rw [Bool.and_true, hna]
      rw [soft_delete_step, if_pos hm, restore_step, if_pos houter]
      exact ⟨fun _ => rfl, Or.inr rfl⟩
    · rw [soft_delete_step, if_neg hm, restore_step]
      by_cases h2 : matchesFilters { f with archived := some true }
          (store.getD i defaultMigration) = true
      · rw [if_pos h2]
        exact ⟨fun h => absurd h hm, Or.inr rfl⟩
      · rw [if_neg h2]
        exact ⟨fun h => absurd h hm, Or.inl rfl⟩

/-- A filter set selecting source id "X". -/
def c7_filters : QueryFilters := { source_id := some "X" }

/-- A concrete row matched by `c7_filters`. -/
def c7_row : Migration :=
  { uuid := 0, service := "neutron", source_cloud := source_cloud_name,
    destination_cloud := destination_cloud_name, source_id := "X",
    resource_type := "network", status := STATUS_COMPLETED,
    destination_id := some "X-dst" }

/-- C7 witness: the round-trip theorem applied at a concrete store. -/
theorem c7_witness :
    0 < [c7_row].length ∧
    matchesFilters c7_filters ([c7_row].getD 0 defaultMigration) = true ∧
    (restore_migrations c7_filters
      (delete_migrations true c7_filters [c7_row])).getD 0 defaultMigration =
      { [c7_row].getD 0 defaultMigration with archived := false } :=
  ⟨by decide, by decide,
    ((c7_soft_delete_restore_round_trip c7_filters [c7_row]).2.1 0
      (by decide)).1 (by decide)⟩

/-- An archived row used to exercise the unguarded restore command. -/
def c8_row : Migration :=
  { uuid := 0, service := "neutron", source_cloud := source_cloud_name,
    destination_cloud := destination_cloud_name, source_id := "X",
    resource_type := "network", status := STATUS_COMPLETED,
    destination_id := some "X-dst", archived := true }

/-- C8 counterexample: invoking the restore command with an empty filter set
(it has no "all" acknowledgment flag at all) does NOT fail — its return type
cannot even carry an error — and it mutates the store, un-archiving the
archived row. -/
theorem c8_counterexample :
    cmd_restore_migrations none none none none none [c8_row] =
      [{ c8_row with archived := false }] ∧
    ¬ cmd_restore_migrations none none none none none [c8_row] = [c8_row] := by
  refine ⟨rfl, by decide⟩

/-- C8 amended: only the delete command guards against an empty filter set —
it fails with a ClickException (not the db layer, which is unguarded) and
leaves the store unchanged by returning an error; the restore command has no
guard and no "all" flag: invoked with no filters it unconditionally restores
every archived row in the store. -/
theorem c8_delete_guarded_restore_unguarded (store : List Migration) :
    cmd_delete_migrations none none none none none false false false store =
      .error (.clickException
        "No filters specified. Pass --all to remove all migrations.") ∧
    cmd_restore_migrations none none none none none store =
      store.map (fun m =>
        if m.archived = true then { m with archived := false } else m) := by
  constructor
  · rfl
  · have hfun : ∀ m : Migration,
        restore_step { service := none, resource_type := none, uuid := none,
                       status := none, source_id := none, archived := none } m =
        if m.archived = true then { m with archived := false } else m := by
      intro m
      cases harch : m.archived <;>
        simp [restore_step, matchesFilters, matchOpt, harch]
    rw [show cmd_restore_migrations none none none none none store =
          restore_migrations { service := none, resource_type := none,
                               uuid := none, status := none,
                               source_id := none } store from rfl,
        restore_migrations_as_map]
    induction store with
    | nil => rfl
    | cons a t ih =>
      simp only [List.map_cons]
      rw [hfun a, ih]

/-- C9: after every store write performed during an individual migration,
the written record's destination_id is non-null if and only if its status is
COMPLETED or SOURCE_CLEANUP_FAILED; in particular the IN_PROGRESS and FAILED
snapshots carry no destination id. -/
theorem c9_destination_id_invariant (handler : Handler)
    (resource_type resource_id : String) (store : List Migration)
    (w : Migration)
    (hw : w ∈ (perform_individual_migration handler resource_type resource_id
      store).writes) :
    w.destination_id.isSome = true ↔
      (w.status = STATUS_COMPLETED ∨ w.status = STATUS_SOURCE_CLEANUP_FAILED) := by
  by_cases h : resource_id = ""
  · simp only [perform_individual_migration, if_pos h] at hw
    exact absurd hw (List.not_mem_nil w)
  · simp only [perform_individual_migration, if_neg h] at hw
    rcases hE : handler.migrate resource_id
        (store ++ [new_migration handler resource_type resource_id store.length])
      with ex | dest
    · rw [hE] at hw
      simp only [List.mem_cons, List.mem_singleton, List.not_mem_nil,
        or_false] at hw
      rcases hw with rfl | rfl
      · exact ⟨fun hx => Bool.noConfusion hx,
          fun hx => hx.elim
            (fun h1 => absurd h1
              (show ¬ (STATUS_IN_PROGRESS = STATUS_COMPLETED) by decide))
            (fun h2 => absurd h2
              (show ¬ (STATUS_IN_PROGRESS = STATUS_SOURCE_CLEANUP_FAILED) by decide))⟩
      · exact ⟨fun hx => Bool.noConfusion hx,
          fun hx => hx.elim
            (fun h1 => absurd h1
              (show ¬ (STATUS_FAILED = STATUS_COMPLETED) by decide))
            (fun h2 => absurd h2
              (show ¬ (STATUS_FAILED = STATUS_SOURCE_CLEANUP_FAILED) by decide))⟩
    · rw [hE] at hw
      simp only [List.mem_cons, List.mem_singleton, List.not_mem_nil,
        or_false] at hw
      rcases hw with rfl | rfl
      · exact ⟨fun hx => Bool.noConfusion hx,
          fun hx => hx.elim
            (fun h1 => absurd h1
              (show ¬ (STATUS_IN_PROGRESS = STATUS_COMPLETED) by decide))
            (fun h2 => absurd h2
              (show ¬ (STATUS_IN_PROGRESS = STATUS_SOURCE_CLEANUP_FAILED) by decide))⟩
      · exact ⟨fun _ => Or.inl rfl, fun _ => rfl⟩

/-- C9 witness: the invariant applied to the concrete IN_PROGRESS write of a
successful migration. -/
theorem c9_witness :
    new_migration okHandler "network" "net-1" 0 ∈
      (perform_individual_migration okHandler "network" "net-1" []).writes ∧
    ((new_migration okHandler "network" "net-1" 0).destination_id.isSome = true ↔
      ((new_migration okHandler "network" "net-1" 0).status = STATUS_COMPLETED ∨
       (new_migration okHandler "network" "net-1" 0).status =
         STATUS_SOURCE_CLEANUP_FAILED)) :=
  ⟨by decide,
    c9_destination_id_invariant okHandler "network" "net-1" []
      (new_migration okHandler "network" "net-1" 0) (by decide)⟩
